import Mathlib

/-!
Shallow embedding of `src/app/app.js` (plane-discord-webhooks), a webhook
relay: an Express handler that verifies an HMAC-SHA256 signature, correlates
pairs of near-duplicate deliveries through an in-memory `sequenceMap` with a
1500 ms window and `setTimeout` expiry, and forwards a formatted embed to a
Discord webhook.

Modelling conventions:
* JavaScript numbers that can be `NaN` (the result of
  `new Date(x).getTime()`) are embedded as `JSNum`; all comparisons with
  `NaN` are `false` and `NaN === NaN` is `false`, as in JS.
* `data.updated_at` is represented post-parse as a `JSNum`: a missing or
  unparseable date string is `JSNum.nan` (in JS, `new Date(undefined)` and
  `new Date("garbage")` both give `NaN` from `getTime`).
* JS `undefined` for possibly-missing string fields is `Option.none`;
  template-literal interpolation renders `undefined` as the string
  `"undefined"`, and `x || y` / `x ?? y` falsiness is modelled explicitly.
* `Buffer.from(s, "utf-8")` is represented by the string `s` together with
  its UTF-8 byte length `byteLen s`; since UTF-8 encoding is injective,
  equality of equal-length buffers coincides with string equality, which is
  how `timingSafeEqual` is modelled (its constant-time property is a
  non-functional concern; the claims only need whether it is invoked).
* `createHmac("sha256", secret).update(body).digest("hex")` is external
  (`node:crypto`); the handler is parameterized by a function
  `hmac : String → String` giving the expected hex digest of the raw body.
* `JSON.parse` plus destructuring is parameterized as
  `parseJson : String → Option ReqData`; `none` models a parse exception.
* A `setTimeout` expiry callback is reified as a `Timer` holding the key and
  the closure-captured `incomingTimestamp`; `fireTimer` is its body.
* The thrown exceptions inside the `try` block (member access on
  `undefined`, `JSON.parse` failure, the explicit `throw` on a non-ok
  Discord response) are routed to the `catch` branch, i.e. a 500 result.
-/

/-- A JavaScript number as used for timestamps: either a proper (integer,
millisecond) value or `NaN`. -/
inductive JSNum where
  | nan : JSNum
  | num : Int → JSNum
deriving DecidableEq, Repr

/-- JS subtraction: any operation involving `NaN` gives `NaN`. -/
def jsSub : JSNum → JSNum → JSNum
  | JSNum.num a, JSNum.num b => JSNum.num (a - b)
  | _, _ => JSNum.nan

/-- JS `x >= 0`: `false` on `NaN`. -/
def jsGe0 : JSNum → Bool
  | JSNum.num a => decide (0 ≤ a)
  | JSNum.nan => false

/-- JS `x < w` for an integer constant `w`: `false` on `NaN`. -/
def jsLtC (x : JSNum) (w : Int) : Bool :=
  match x with
  | JSNum.num a => decide (a < w)
  | JSNum.nan => false

/-- JS strict equality `===` on numbers: `NaN === y` is always `false`. -/
def jsEqq : JSNum → JSNum → Bool
  | JSNum.num a, JSNum.num b => decide (a = b)
  | _, _ => false

/-- `const WINDOW_MS = 1500;` -/
def WINDOW_MS : Int := 1500

/-- The guard `timeDifference >= 0 && timeDifference < WINDOW_MS` from the
handler, on the JS value `timeDifference`. -/
def inWindow (d : JSNum) : Bool :=
  jsGe0 d && jsLtC d WINDOW_MS

/-- Template-literal rendering of a possibly-`undefined` JS string
(`undefined` prints as `"undefined"`). -/
def jsShowOpt : Option String → String
  | some s => s
  | none => "undefined"

/-- JS truthiness test for a possibly-`undefined` string: `undefined` and
`""` are falsy. -/
def jsFalsyOpt : Option String → Bool
  | none => true
  | some s => decide (s = "")

/-- JS `a || b` rendered into a template literal: `a` if truthy, else the
rendering of `b` (used for `data.name || data.id`). -/
def jsOrShow (a b : Option String) : String :=
  match a with
  | some s => if s = "" then jsShowOpt b else s
  | none => jsShowOpt b

/-- UTF-8 byte length of one character (the length contribution to
`Buffer.from(s, "utf-8")`). -/
def charUtf8Len (c : Char) : Nat :=
  if c.toNat < 0x80 then 1
  else if c.toNat < 0x800 then 2
  else if c.toNat < 0x10000 then 3
  else 4

/-- `Buffer.from(s, "utf-8").length`. -/
def byteLen (s : String) : Nat :=
  s.data.foldl (fun n c => n + charUtf8Len c) 0

/-- A value stored in `sequenceMap`:
`{ timestamp: incomingTimestamp, action: action }`. The `action` field keeps
the JS value, which is `undefined` when the payload lacks `action`. -/
structure PendRec where
  timestamp : JSNum
  action : Option String
deriving DecidableEq, Repr

/-- A pending `setTimeout` expiry callback, reified with the data its
closure captures: the sequence key and the `incomingTimestamp` at schedule
time. -/
structure Timer where
  key : String
  captured : JSNum
deriving DecidableEq, Repr

/-- The mutable state of the module: the `sequenceMap` (a JS `Map`, i.e. at
most one value per key, modelled as a function to `Option`) together with
the outstanding `setTimeout` expiry callbacks. -/
structure SysState where
  table : String → Option PendRec
  timers : List Timer

/-- The empty initial state (`new Map()`, no timers). -/
def initState : SysState :=
  { table := fun _ => none, timers := [] }

/-- `sequenceMap.set(k, v)` on the table. -/
def mapSet (m : String → Option PendRec) (k : String) (v : PendRec) :
    String → Option PendRec :=
  fun k' => if k' = k then some v else m k'

/-- `sequenceMap.delete(k)` on the table. -/
def mapDelete (m : String → Option PendRec) (k : String) :
    String → Option PendRec :=
  fun k' => if k' = k then none else m k'

/-- The body of the `setTimeout` callback scheduled on first sight of a key:
```js
const record = sequenceMap.get(sequenceKey);
if (record && record.timestamp === incomingTimestamp) {
  sequenceMap.delete(sequenceKey);
}
```
Firing consumes the timer (a `setTimeout` callback runs once). -/
def fireTimer (st : SysState) (t : Timer) : SysState :=
  { table :=
      match st.table t.key with
      | some r =>
        if jsEqq r.timestamp t.captured then mapDelete st.table t.key
        else st.table
      | none => st.table
    timers := st.timers.erase t }

/-- The correlator's decision for one authenticated, parsed event.
`Completed` carries the cached record (`existingRecord` in the source, in
scope at the point the embed is built). -/
inductive Decision where
  | Cached : Decision
  | Completed : PendRec → Decision
  | Reset : Decision
deriving DecidableEq, Repr

/-- The correlator step of the handler (lines 86–158 of `app.js` up to the
decision): lookup of `sequenceKey` in `sequenceMap`, first-seen insert plus
expiry scheduling, window match with delete, or overwrite. Returns the
decision and the updated state. Note the `Reset` overwrite schedules no new
timer, exactly as in the source. -/
def observe (st : SysState) (key : String) (ts : JSNum) (ac : Option String) :
    Decision × SysState :=
  match st.table key with
  | none =>
    (Decision.Cached,
     { table := mapSet st.table key { timestamp := ts, action := ac }
       timers := st.timers ++ [{ key := key, captured := ts }] })
  | some rec =>
    if inWindow (jsSub ts rec.timestamp) then
      (Decision.Completed rec,
       { table := mapDelete st.table key, timers := st.timers })
    else
      (Decision.Reset,
       { table := mapSet st.table key { timestamp := ts, action := ac }
         timers := st.timers })

example : (observe initState "issue:7" (JSNum.num 100) (some "update")).fst
    = Decision.Cached := by decide

/-- The `activity.actor` object (`display_name` may be missing). -/
structure Actor where
  display_name : Option String
deriving DecidableEq, Repr

/-- The optional `activity` object of the payload; each field may be missing
(`undefined`). -/
structure Activity where
  field : Option String
  new_value : Option String
  actor : Option Actor
deriving DecidableEq, Repr

/-- The `data` object of the payload. `updated_at` is the post-parse JS
number `new Date(data.updated_at).getTime()` (`NaN` when the field is
missing or unparseable); `id` and `name` are `undefined` when missing. -/
structure DataObj where
  id : Option String
  updated_at : JSNum
  name : Option String
deriving DecidableEq, Repr

/-- The result of `JSON.parse` after the destructuring
`const { event, action, data, activity } = RequestData;`. Any of the four
may be `undefined` in JS, hence `Option`. -/
structure ReqData where
  event : Option String
  action : Option String
  data : Option DataObj
  activity : Option Activity
deriving DecidableEq, Repr

/-- The outbound Discord embed, restricted to the fields the handler
computes from the payload (the live `timestamp: new Date().toISOString()`
and the constant `color` are omitted). `typeField`, `byField` and
`contentField` are the values of the `Type`, `By` and `Content` entries of
`fields`. -/
structure Embed where
  title : String
  description : String
  typeField : String
  byField : String
  contentField : String
deriving DecidableEq, Repr

/-- JS `String.prototype.toUpperCase`, character-wise (it agrees with
`Char.toUpper` on the ASCII data this handler sees). -/
def jsToUpper (s : String) : String :=
  String.mk (s.data.map Char.toUpper)

/-- The embed construction of the `Completed` branch (lines 109–138),
assuming `event` and `action` are present strings `ev`/`ac` (otherwise
`.toUpperCase()` throws; that case is handled in `handle`):
```js
const fieldType = activity?.field ?? "No field data";
let content = fieldType;
if (fieldType === "state") {
  const newState = String(activity?.new_value ?? "Unknown").toUpperCase();
  content = `Issue is now in ${newState}`;
}
const embed = { title: `${event.toUpperCase()} ${action.toUpperCase()}`,
  description: `**Entity:** ${data.name || data.id}`, ... };
```
-/
def buildEmbed (ev ac : String) (dat : DataObj) (activity : Option Activity) :
    Embed :=
  let fieldType := (activity.bind Activity.field).getD "No field data"
  let content :=
    if fieldType = "state" then
      "Issue is now in " ++
        jsToUpper ((activity.bind Activity.new_value).getD "Unknown")
    else fieldType
  { title := jsToUpper ev ++ " " ++ jsToUpper ac
    description := "**Entity:** " ++ jsOrShow dat.name dat.id
    typeField := fieldType
    byField :=
      ((activity.bind Activity.actor).bind Actor.display_name).getD
        "Unknown User"
    contentField := content }

/-- Everything one request produces: the HTTP status sent to the caller, the
state of `sequenceMap` and the outstanding timers afterward, the number of
`fetch` calls made to the Discord webhook, the embed sent (if any), the
correlator decision reached (if the request got that far), and whether
`timingSafeEqual` was invoked. -/
structure HandlerResult where
  status : Nat
  state : SysState
  sinkCalls : Nat
  sentEmbed : Option Embed
  decision : Option Decision
  comparatorInvoked : Bool

/-- The part of the handler from a successfully parsed body onward
(lines 81–158): member access on `data`, key construction, the correlator
step, and on `Completed` the embed build, the single `fetch`, and the
`throw` on a non-ok Discord response (caught as 500). `sinkOk` is
`discordResponse.ok`. A missing `data` object faults at
`data.updated_at` (caught as 500, table untouched); a missing `event` or
`action` faults at `.toUpperCase()` in the `Completed` branch (caught as
500, after the record was already deleted, before any `fetch`). -/
def handleParsed (sinkOk : Bool) (st : SysState) (rd : ReqData) :
    HandlerResult :=
  match rd.data with
  | none =>
    { status := 500, state := st, sinkCalls := 0, sentEmbed := none
      decision := none, comparatorInvoked := true }
  | some dat =>
    let ts := dat.updated_at
    let key := jsShowOpt rd.event ++ ":" ++ jsShowOpt dat.id
    match observe st key ts rd.action with
    | (Decision.Cached, st') =>
      { status := 200, state := st', sinkCalls := 0, sentEmbed := none
        decision := some Decision.Cached, comparatorInvoked := true }
    | (Decision.Reset, st') =>
      { status := 200, state := st', sinkCalls := 0, sentEmbed := none
        decision := some Decision.Reset, comparatorInvoked := true }
    | (Decision.Completed orig, st') =>
      match rd.event, rd.action with
      | some ev, some ac =>
        let embed := buildEmbed ev ac dat rd.activity
        { status := if sinkOk then 200 else 500, state := st'
          sinkCalls := 1, sentEmbed := some embed
          decision := some (Decision.Completed orig)
          comparatorInvoked := true }
      | some _, none =>
        { status := 500, state := st', sinkCalls := 0, sentEmbed := none
          decision := some (Decision.Completed orig)
          comparatorInvoked := true }
      | none, _ =>
        { status := 500, state := st', sinkCalls := 0, sentEmbed := none
          decision := some (Decision.Completed orig)
          comparatorInvoked := true }

/-- The full `/webhook` handler for one request (lines 56–163).
`hmac` abstracts `createHmac("sha256", WebhookSecret).update(body)
.digest("hex")`; `parseJson` abstracts `JSON.parse` plus destructuring
(`none` = parse exception); `secret` is `WEBHOOK_SECRET` and `providedSig`
the `x-plane-signature` header (`none` = absent). The guard structure
mirrors the source:
```js
if (!WebhookSecret || !ProvidedSignature) return 401;
if (ExpectedBuffer.length !== ProvidedBuffer.length ||
    !timingSafeEqual(ExpectedBuffer, ProvidedBuffer)) return 403;
```
so a length mismatch short-circuits `||` and `timingSafeEqual` is not
invoked. -/
def handle (hmac : String → String) (parseJson : String → Option ReqData)
    (secret : Option String) (sinkOk : Bool) (st : SysState)
    (providedSig : Option String) (rawBody : String) : HandlerResult :=
  if jsFalsyOpt secret || jsFalsyOpt providedSig then
    { status := 401, state := st, sinkCalls := 0, sentEmbed := none
      decision := none, comparatorInvoked := false }
  else
    let expected := hmac rawBody
    let provided := jsShowOpt providedSig
    if byteLen expected ≠ byteLen provided then
      { status := 403, state := st, sinkCalls := 0, sentEmbed := none
        decision := none, comparatorInvoked := false }
    else if expected ≠ provided then
      { status := 403, state := st, sinkCalls := 0, sentEmbed := none
        decision := none, comparatorInvoked := true }
    else
      match parseJson rawBody with
      | none =>
        { status := 500, state := st, sinkCalls := 0, sentEmbed := none
          decision := none, comparatorInvoked := true }
      | some rd => handleParsed sinkOk st rd

/-! ## Concrete request fixtures (used by counterexamples and witnesses) -/

/-- A stand-in for the HMAC-SHA256 hex digest function: every body digests
to `"sig0"`, so a request presenting `"sig0"` is authentic. -/
def hmacFix : String → String := fun _ => "sig0"

/-- Parsed payload `{event: "issue", action: "updated",
data: {id: "7", updated_at: T0}}` with `T0` parsing to `0` ms. -/
def parseFix1 : String → Option ReqData := fun _ =>
  some { event := some "issue", action := some "updated"
         data :=
           some { id := some "7", updated_at := JSNum.num 0, name := none }
         activity := none }

/-- Same payload as `parseFix1` but with `updated_at` parsing to 2000 ms
(outside the 1500 ms window). -/
def parseFix2 : String → Option ReqData := fun _ =>
  some { event := some "issue", action := some "updated"
         data :=
           some { id := some "7", updated_at := JSNum.num 2000, name := none }
         activity := none }

/-- First request of the C2 trace: authenticated, first-seen, `Cached`. -/
def resFix1 : HandlerResult :=
  handle hmacFix parseFix1 (some "s") true initState (some "sig0") "b"

/-- Second request of the C2 trace: same key, 2000 ms later, `Reset`. -/
def resFix2 : HandlerResult :=
  handle hmacFix parseFix2 (some "s") true resFix1.state (some "sig0") "b"

/-- Payload that parses but whose `data` object lacks the required `id` and
`updated_at` fields (`new Date(undefined).getTime()` is `NaN`, `data.id` is
`undefined`). -/
def parseFixMissing : String → Option ReqData := fun _ =>
  some { event := some "issue", action := some "updated"
         data := some { id := none, updated_at := JSNum.nan, name := none }
         activity := none }

/-- Payload with no `event` field, timestamp 100 ms (its sequence key is
`"undefined:7"`). -/
def parseFixNoEvent1 : String → Option ReqData := fun _ =>
  some { event := none, action := some "updated"
         data :=
           some { id := some "7", updated_at := JSNum.num 100, name := none }
         activity := none }

/-- Payload with no `event` field, timestamp 200 ms (within the window of
`parseFixNoEvent1`). -/
def parseFixNoEvent2 : String → Option ReqData := fun _ =>
  some { event := none, action := some "updated"
         data :=
           some { id := some "7", updated_at := JSNum.num 200, name := none }
         activity := none }

/-- First event-less request: first-seen, `Cached` under `"undefined:7"`. -/
def resFixNoEvent1 : HandlerResult :=
  handle hmacFix parseFixNoEvent1 (some "s") true initState (some "sig0") "b"

/-- Second event-less request: matches within the window, so the correlator
decides `Completed` and deletes the record, but `event.toUpperCase()` then
throws. -/
def resFixNoEvent2 : HandlerResult :=
  handle hmacFix parseFixNoEvent2 (some "s") true resFixNoEvent1.state
    (some "sig0") "b"

/-- Completing payload of the spec scenario: 500 ms after `parseFix1`, with
`activity = {field: "state", new_value: "done"}`. -/
def parseFixDone : String → Option ReqData := fun _ =>
  some { event := some "issue", action := some "updated"
         data :=
           some { id := some "7", updated_at := JSNum.num 500, name := none }
         activity :=
           some { field := some "state", new_value := some "done"
                  actor := none } }

/-! ## Helper lemmas -/

/-- Firing a timer never touches a key other than the timer's own. -/
lemma fireTimer_table_apart (st : SysState) (t : Timer) (k : String)
    (hk : k ≠ t.key) : (fireTimer st t).table k = st.table k := by
  match h : st.table t.key with
  | none => simp [fireTimer, h]
  | some r =>
    by_cases he : jsEqq r.timestamp t.captured = true
    · simp [fireTimer, h, he, mapDelete, hk]
    · simp [fireTimer, h, he]

/-- The `Reset` branch of `observe`: pending record present, window guard
false. -/
lemma observe_reset_eq (st : SysState) (key : String) (ts : JSNum)
    (ac : Option String) (rec : PendRec) (h : st.table key = some rec)
    (hw : inWindow (jsSub ts rec.timestamp) = false) :
    observe st key ts ac =
      (Decision.Reset,
       { table := mapSet st.table key { timestamp := ts, action := ac }
         timers := st.timers }) := by
  simp [observe, h, hw]

/-- The `Completed` branch of `observe`: pending record present, window
guard true. -/
lemma observe_completed_eq (st : SysState) (key : String) (ts : JSNum)
    (ac : Option String) (rec : PendRec) (h : st.table key = some rec)
    (hw : inWindow (jsSub ts rec.timestamp) = true) :
    observe st key ts ac =
      (Decision.Completed rec,
       { table := mapDelete st.table key, timers := st.timers }) := by
  simp [observe, h, hw]

/-- The `Cached` branch of `observe`: no pending record. -/
lemma observe_cached_eq (st : SysState) (key : String) (ts : JSNum)
    (ac : Option String) (h : st.table key = none) :
    observe st key ts ac =
      (Decision.Cached,
       { table := mapSet st.table key { timestamp := ts, action := ac }
         timers := st.timers ++ [{ key := key, captured := ts }] }) := by
  simp [observe, h]

/-- After a successful parse, at most one `fetch` is made, and one is made
only when the correlator decided `Completed`. -/
lemma handleParsed_sink_shape (sinkOk : Bool) (st : SysState) (rd : ReqData) :
    (handleParsed sinkOk st rd).sinkCalls ≤ 1 ∧
    ((handleParsed sinkOk st rd).sinkCalls = 1 →
      ∃ rec, (handleParsed sinkOk st rd).decision =
        some (Decision.Completed rec)) := by
  cases hdat : rd.data with
  | none => simp [handleParsed, hdat]
  | some dat =>
    rcases hobs : observe st (jsShowOpt rd.event ++ ":" ++ jsShowOpt dat.id)
        dat.updated_at rd.action with ⟨dec, st'⟩
    cases dec with
    | Cached => simp [handleParsed, hdat, hobs]
    | Reset => simp [handleParsed, hdat, hobs]
    | Completed orig =>
      cases hev : rd.event with
      | none =>
        rw [hev] at hobs
        simp [handleParsed, hdat, hobs, hev]
      | some ev =>
        cases hac : rd.action with
        | none =>
          rw [hev, hac] at hobs
          simp [handleParsed, hdat, hobs, hev, hac]
        | some ac =>
          rw [hev, hac] at hobs
          cases sinkOk <;> simp [handleParsed, hdat, hobs, hev, hac]

/-- Over the whole handler: at most one `fetch` per request, and one only
with a `Completed` decision. -/
lemma handle_sink_shape (hmac : String → String)
    (parseJson : String → Option ReqData) (secret : Option String)
    (sinkOk : Bool) (st : SysState) (sig : Option String) (raw : String) :
    (handle hmac parseJson secret sinkOk st sig raw).sinkCalls ≤ 1 ∧
    ((handle hmac parseJson secret sinkOk st sig raw).sinkCalls = 1 →
      ∃ rec, (handle hmac parseJson secret sinkOk st sig raw).decision =
        some (Decision.Completed rec)) := by
  cases hgb : (jsFalsyOpt secret || jsFalsyOpt sig) with
  | true => simp [handle, hgb]
  | false =>
    by_cases hlen : byteLen (hmac raw) = byteLen (jsShowOpt sig)
    · by_cases hne : hmac raw = jsShowOpt sig
      · cases hparse : parseJson raw with
        | none => simp [handle, hgb, hlen, hne, hparse]
        | some rd =>
          have h := handleParsed_sink_shape sinkOk st rd
          simp only [handle, hgb, Bool.false_eq_true, if_false, hne, hlen,
            ne_eq, not_true_eq_false, if_false, hparse]
          exact h
      · simp [handle, hgb, hlen, hne]
    · simp [handle, hgb, hlen]

/-! ## Claim theorems -/

/-- C1: for every authenticated request, `observe` on a key with no pending
record returns `Cached` and leaves the table holding exactly that
observation; on a key with a pending record it returns `Completed` and
deletes the record exactly when the JS guard `0 <= delta && delta < 1500`
holds (for proper numbers this is `0 ≤ Δ < 1500`, so `Δ = 0` matches and
`Δ = 1500` does not), and otherwise returns `Reset` leaving the table
holding exactly the new observation; the table (a map) holds at most one
record per key throughout. -/
theorem C1_observe_contract (st : SysState) (key : String) (ts : JSNum)
    (ac : Option String) :
    (st.table key = none →
      (observe st key ts ac).fst = Decision.Cached ∧
      (observe st key ts ac).snd.table key =
        some { timestamp := ts, action := ac } ∧
      ∀ k, k ≠ key → (observe st key ts ac).snd.table k = st.table k) ∧
    (∀ rec, st.table key = some rec →
      (inWindow (jsSub ts rec.timestamp) = true →
        (observe st key ts ac).fst = Decision.Completed rec ∧
        (observe st key ts ac).snd.table key = none) ∧
      (inWindow (jsSub ts rec.timestamp) = false →
        (observe st key ts ac).fst = Decision.Reset ∧
        (observe st key ts ac).snd.table key =
          some { timestamp := ts, action := ac } ∧
        ∀ k, k ≠ key → (observe st key ts ac).snd.table k = st.table k)) ∧
    (∀ a b : Int,
      inWindow (jsSub (JSNum.num a) (JSNum.num b)) = true ↔
        0 ≤ a - b ∧ a - b < 1500) := by
  refine ⟨?_, ?_, ?_⟩
  · intro h
    refine ⟨by simp [observe, h], by simp [observe, h, mapSet], ?_⟩
    intro k hk
    simp [observe, h, mapSet, hk]
  · intro rec h
    constructor
    · intro hw
      constructor
      · simp [observe, h, hw]
      · simp [observe, h, hw, mapDelete]
    · intro hw
      refine ⟨by simp [observe, h, hw], by simp [observe, h, hw, mapSet], ?_⟩
      intro k hk
      simp [observe, h, hw, mapSet, hk]
  · intro a b
    simp only [inWindow, jsSub, jsGe0, jsLtC, WINDOW_MS, Bool.and_eq_true,
      decide_eq_true_eq]

/-- C1 witness: concrete instance of the contract — first sight of a key is
`Cached` and stores the observation. -/
theorem C1_observe_contract_witness :
    (observe initState "issue:7" (JSNum.num 100) (some "update")).fst =
        Decision.Cached ∧
      (observe initState "issue:7" (JSNum.num 100) (some "update")).snd.table
          "issue:7" =
        some { timestamp := JSNum.num 100, action := some "update" } := by
  have h :=
    (C1_observe_contract initState "issue:7" (JSNum.num 100)
        (some "update")).1 rfl
  exact ⟨h.1, h.2.1⟩

/-- C3: a fired expiry callback removes the record for its key only when the
record present at fire time has `===`-equal timestamp to the one captured at
schedule time; when the record was consumed (absent) or replaced by one with
a different timestamp, firing leaves the whole table unchanged, so the newer
record is never removed; other keys are never touched. -/
theorem C3_expiry_guard (st : SysState) (t : Timer) :
    ((fireTimer st t).table t.key ≠ st.table t.key →
      ∃ r, st.table t.key = some r ∧ jsEqq r.timestamp t.captured = true ∧
        (fireTimer st t).table t.key = none) ∧
    (∀ r, st.table t.key = some r → jsEqq r.timestamp t.captured = false →
      (fireTimer st t).table = st.table) ∧
    (st.table t.key = none → (fireTimer st t).table = st.table) ∧
    (∀ k, k ≠ t.key → (fireTimer st t).table k = st.table k) := by
  refine ⟨?_, ?_, ?_, ?_⟩
  · intro hne
    match h : st.table t.key with
    | none => simp [fireTimer, h] at hne
    | some r =>
      by_cases he : jsEqq r.timestamp t.captured = true
      · exact ⟨r, rfl, he, by simp [fireTimer, h, he, mapDelete]⟩
      · simp [fireTimer, h, he] at hne
  · intro r h he
    simp [fireTimer, h, he]
  · intro h
    simp [fireTimer, h]
  · intro k hk
    match h : st.table t.key with
    | none => simp [fireTimer, h]
    | some r =>
      by_cases he : jsEqq r.timestamp t.captured = true
      · simp [fireTimer, h, he, mapDelete, hk]
      · simp [fireTimer, h, he]

/-- C3 witness: a timer whose key now holds a record with a different
timestamp fires as a no-op. -/
theorem C3_expiry_guard_witness :
    (fireTimer
        { table :=
            mapSet initState.table "issue:7"
              { timestamp := JSNum.num 2000, action := some "updated" }
          timers := [{ key := "issue:7", captured := JSNum.num 0 }] }
        { key := "issue:7", captured := JSNum.num 0 }).table =
      mapSet initState.table "issue:7"
        { timestamp := JSNum.num 2000, action := some "updated" } :=
  (C3_expiry_guard
      { table :=
          mapSet initState.table "issue:7"
            { timestamp := JSNum.num 2000, action := some "updated" }
        timers := [{ key := "issue:7", captured := JSNum.num 0 }] }
      { key := "issue:7", captured := JSNum.num 0 }).2.1
    { timestamp := JSNum.num 2000, action := some "updated" } (by decide)
    (by decide)

/-- C10: a pending record whose stored timestamp is `NaN` (an `updated_at`
that is missing or does not parse) is never removed by any expiry firing
(`NaN === NaN` is `false`), and every later `observe` on its key returns
`Reset` (never `Completed`, since every comparison against `NaN` is
`false`), overwriting it with the new observation. -/
theorem C10_nan_record_pinned (st : SysState) (key : String) (rec : PendRec)
    (h : st.table key = some rec) (hnan : rec.timestamp = JSNum.nan) :
    (∀ t : Timer, (fireTimer st t).table key = some rec) ∧
    (∀ (ts : JSNum) (ac : Option String),
      (observe st key ts ac).fst = Decision.Reset ∧
      (observe st key ts ac).snd.table key =
        some { timestamp := ts, action := ac }) := by
  constructor
  · intro t
    by_cases hk : key = t.key
    · subst hk
      simp [fireTimer, h, hnan, jsEqq]
    · rw [fireTimer_table_apart st t key hk, h]
  · intro ts ac
    have hwin : inWindow (jsSub ts rec.timestamp) = false := by
      rw [hnan]
      cases ts <;> simp [jsSub, inWindow, jsGe0]
    rw [observe_reset_eq st key ts ac rec h hwin]
    simp [mapSet]

/-- C4: a presented (nonempty) signature whose UTF-8 byte length differs
from that of the expected hex digest is answered with 403 by the
short-circuiting guard, `timingSafeEqual` is never invoked, the state is
untouched and no downstream call happens (in particular no fault: the
result is the 403 response, not a 500). -/
theorem C4_length_short_circuit (hmac : String → String)
    (parseJson : String → Option ReqData) (secret : Option String)
    (sinkOk : Bool) (st : SysState) (s raw : String)
    (hsecret : jsFalsyOpt secret = false) (hs : s ≠ "")
    (hlen : byteLen (hmac raw) ≠ byteLen s) :
    (handle hmac parseJson secret sinkOk st (some s) raw).status = 403 ∧
    (handle hmac parseJson secret sinkOk st (some s) raw).comparatorInvoked =
      false ∧
    (handle hmac parseJson secret sinkOk st (some s) raw).state = st ∧
    (handle hmac parseJson secret sinkOk st (some s) raw).sinkCalls = 0 := by
  have hsig : jsFalsyOpt (some s) = false := by simp [jsFalsyOpt, hs]
  refine ⟨?_, ?_, ?_, ?_⟩ <;>
    simp [handle, hsecret, hsig, jsShowOpt, hlen]

/-- C4 witness: a 1-byte signature against a 2-byte expected digest. -/
theorem C4_length_short_circuit_witness :
    (handle (fun _ => "aa") (fun _ => none) (some "k") true initState
        (some "a") "b").status = 403 ∧
    (handle (fun _ => "aa") (fun _ => none) (some "k") true initState
        (some "a") "b").comparatorInvoked = false ∧
    (handle (fun _ => "aa") (fun _ => none) (some "k") true initState
        (some "a") "b").state = initState ∧
    (handle (fun _ => "aa") (fun _ => none) (some "k") true initState
        (some "a") "b").sinkCalls = 0 :=
  C4_length_short_circuit (fun _ => "aa") (fun _ => none) (some "k") true
    initState "a" "b" (by decide) (by decide) (by decide)

/-- C9: a request rejected by the credentials guard (401) or by the
signature check (403, by length or by content) produces exactly the
rejection result with the state passed through unchanged: no record is
inserted, deleted or overwritten and no expiry timer is scheduled, and no
downstream call is made. -/
theorem C9_rejection_leaves_state (hmac : String → String)
    (parseJson : String → Option ReqData) (secret : Option String)
    (sinkOk : Bool) (st : SysState) (sig : Option String) (raw : String) :
    ((jsFalsyOpt secret || jsFalsyOpt sig) = true →
      handle hmac parseJson secret sinkOk st sig raw =
        { status := 401, state := st, sinkCalls := 0, sentEmbed := none
          decision := none, comparatorInvoked := false }) ∧
    ((jsFalsyOpt secret || jsFalsyOpt sig) = false →
      byteLen (hmac raw) ≠ byteLen (jsShowOpt sig) →
      handle hmac parseJson secret sinkOk st sig raw =
        { status := 403, state := st, sinkCalls := 0, sentEmbed := none
          decision := none, comparatorInvoked := false }) ∧
    ((jsFalsyOpt secret || jsFalsyOpt sig) = false →
      byteLen (hmac raw) = byteLen (jsShowOpt sig) →
      hmac raw ≠ jsShowOpt sig →
      handle hmac parseJson secret sinkOk st sig raw =
        { status := 403, state := st, sinkCalls := 0, sentEmbed := none
          decision := none, comparatorInvoked := true }) := by
  refine ⟨?_, ?_, ?_⟩
  · intro h
    simp [handle, h]
  · intro h hlen
    simp [handle, h, hlen]
  · intro h hlen hne
    simp [handle, h, hlen, hne]

/-- C9 witness: an absent signature header yields the untouched-state 401
result. -/
theorem C9_rejection_leaves_state_witness :
    handle (fun _ => "aa") (fun _ => none) (some "k") true initState none
        "b" =
      { status := 401, state := initState, sinkCalls := 0, sentEmbed := none
        decision := none, comparatorInvoked := false } :=
  (C9_rejection_leaves_state (fun _ => "aa") (fun _ => none) (some "k") true
      initState none "b").1 (by decide)

/-- C2 counterexample: a reachable state (two authenticated requests from
the initial state, the second a `Reset` at `Δ = 2000`) in which the pending
record `{timestamp: 2000}` for `"issue:7"` is *not* covered by any expiry
that can remove it: the only scheduled timer is the first request's (it
captured timestamp 0), no fresh timer was scheduled by the `Reset`
overwrite, and firing that timer leaves the record in place. This refutes
both "every record is covered by exactly one scheduled expiry action that
will eventually remove it" and "after a Reset overwrites an existing
record, a fresh expiry check is scheduled". -/
theorem C2_counterexample :
    resFix2.decision = some Decision.Reset ∧
    resFix2.state.table "issue:7" =
      some { timestamp := JSNum.num 2000, action := some "updated" } ∧
    resFix2.state.timers = [{ key := "issue:7", captured := JSNum.num 0 }] ∧
    (fireTimer resFix2.state
        { key := "issue:7", captured := JSNum.num 0 }).table "issue:7" =
      some { timestamp := JSNum.num 2000, action := some "updated" } :=
  ⟨by decide, by decide, by decide, by decide⟩

/-- C2 amended: a record inserted by the first-seen (`Cached`) path is
covered by exactly one newly scheduled expiry, capturing the record's
timestamp; the `Reset` overwrite schedules *no* new expiry (the timer list
is unchanged), and no timer whose captured timestamp differs from the new
record's can ever remove it, so an overwritten record persists until a
later event on its key supersedes it. -/
theorem C2_reset_schedules_no_expiry (st : SysState) (key : String)
    (ts : JSNum) (ac : Option String) :
    (st.table key = none →
      (observe st key ts ac).snd.timers =
        st.timers ++ [{ key := key, captured := ts }]) ∧
    (∀ rec, st.table key = some rec →
      inWindow (jsSub ts rec.timestamp) = false →
      (observe st key ts ac).snd.timers = st.timers ∧
      (observe st key ts ac).snd.table key =
        some { timestamp := ts, action := ac } ∧
      ∀ t : Timer, jsEqq ts t.captured = false →
        (fireTimer (observe st key ts ac).snd t).table key =
          some { timestamp := ts, action := ac }) := by
  constructor
  · intro h
    rw [observe_cached_eq st key ts ac h]
  · intro rec h hw
    rw [observe_reset_eq st key ts ac rec h hw]
    refine ⟨rfl, by simp [mapSet], ?_⟩
    intro t hec
    by_cases hk : key = t.key
    · subst hk
      simp [fireTimer, mapSet, hec]
    · rw [fireTimer_table_apart _ t key hk]
      simp [mapSet]

/-- C2 amended witness: concrete `Reset` at `Δ = 2000` scheduling nothing,
with the stale timer unable to remove the new record. -/
theorem C2_reset_schedules_no_expiry_witness :
    (observe
        { table :=
            mapSet initState.table "issue:7"
              { timestamp := JSNum.num 0, action := some "updated" }
          timers := [{ key := "issue:7", captured := JSNum.num 0 }] }
        "issue:7" (JSNum.num 2000) (some "updated")).snd.timers =
      [{ key := "issue:7", captured := JSNum.num 0 }] ∧
    (fireTimer
        (observe
            { table :=
                mapSet initState.table "issue:7"
                  { timestamp := JSNum.num 0, action := some "updated" }
              timers := [{ key := "issue:7", captured := JSNum.num 0 }] }
            "issue:7" (JSNum.num 2000) (some "updated")).snd
        { key := "issue:7", captured := JSNum.num 0 }).table "issue:7" =
      some { timestamp := JSNum.num 2000, action := some "updated" } := by
  have h :=
    (C2_reset_schedules_no_expiry
        { table :=
            mapSet initState.table "issue:7"
              { timestamp := JSNum.num 0, action := some "updated" }
          timers := [{ key := "issue:7", captured := JSNum.num 0 }] }
        "issue:7" (JSNum.num 2000) (some "updated")).2
      { timestamp := JSNum.num 0, action := some "updated" } (by decide)
      (by decide)
  exact ⟨h.1, h.2.2 { key := "issue:7", captured := JSNum.num 0 } (by decide)⟩

/-- C10 witness: a concrete `NaN` record survives its own expiry firing and
forces `Reset` on the next event. -/
theorem C10_nan_record_pinned_witness :
    (fireTimer
        { table :=
            mapSet initState.table "issue:7"
              { timestamp := JSNum.nan, action := some "updated" }
          timers := [{ key := "issue:7", captured := JSNum.nan }] }
        { key := "issue:7", captured := JSNum.nan }).table "issue:7" =
      some { timestamp := JSNum.nan, action := some "updated" } ∧
    (observe
        { table :=
            mapSet initState.table "issue:7"
              { timestamp := JSNum.nan, action := some "updated" }
          timers := [{ key := "issue:7", captured := JSNum.nan }] }
        "issue:7" (JSNum.num 50) none).fst = Decision.Reset := by
  have h :=
    C10_nan_record_pinned
      { table :=
          mapSet initState.table "issue:7"
            { timestamp := JSNum.nan, action := some "updated" }
        timers := [{ key := "issue:7", captured := JSNum.nan }] }
      "issue:7" { timestamp := JSNum.nan, action := some "updated" }
      (by decide) rfl
  exact ⟨h.1 { key := "issue:7", captured := JSNum.nan },
    (h.2 (JSNum.num 50) none).1⟩

/-- C8: the formatted message has a title combining the event type and
action both uppercased, a body naming the entity
(`**Entity:** ` followed by `data.name || data.id`), a content line equal to
the raw activity field name by default but equal to `"Issue is now in "`
followed by the uppercased new value when the field is exactly `"state"`,
and a byline equal to the actor's display name, falling back to
`"Unknown User"` when the actor (or the whole activity) is absent. -/
theorem C8_formatter_shape (ev acn : String) (dat : DataObj)
    (act : Option Activity) :
    (buildEmbed ev acn dat act).title = jsToUpper ev ++ " " ++ jsToUpper acn ∧
    (buildEmbed ev acn dat act).description =
      "**Entity:** " ++ jsOrShow dat.name dat.id ∧
    (∀ a f, act = some a → a.field = some f → f ≠ "state" →
      (buildEmbed ev acn dat act).contentField = f) ∧
    (act = none → (buildEmbed ev acn dat act).contentField = "No field data") ∧
    (∀ a v, act = some a → a.field = some "state" → a.new_value = some v →
      (buildEmbed ev acn dat act).contentField =
        "Issue is now in " ++ jsToUpper v) ∧
    (∀ a ar n, act = some a → a.actor = some ar → ar.display_name = some n →
      (buildEmbed ev acn dat act).byField = n) ∧
    (act = none → (buildEmbed ev acn dat act).byField = "Unknown User") ∧
    (∀ a, act = some a → a.actor = none →
      (buildEmbed ev acn dat act).byField = "Unknown User") := by
  refine ⟨rfl, rfl, ?_, ?_, ?_, ?_, ?_, ?_⟩
  · intro a f ha hf hne
    simp [buildEmbed, ha, hf, hne]
  · intro ha
    simp [buildEmbed, ha]
  · intro a v ha hf hv
    simp [buildEmbed, ha, hf, hv]
  · intro a ar n ha har hn
    simp [buildEmbed, ha, har, hn]
  · intro ha
    simp [buildEmbed, ha]
  · intro a ha har
    simp [buildEmbed, ha, har]

/-- C8 witness: the spec's scenario — `"done"` in the `"state"` field
renders as `"Issue is now in DONE"`, with the uppercased title and the
`"Unknown User"` byline. -/
theorem C8_formatter_shape_witness :
    (buildEmbed "issue" "updated"
        { id := some "7", updated_at := JSNum.num 500, name := none }
        (some { field := some "state", new_value := some "done"
                actor := none })).contentField = "Issue is now in DONE" ∧
    (buildEmbed "issue" "updated"
        { id := some "7", updated_at := JSNum.num 500, name := none }
        (some { field := some "state", new_value := some "done"
                actor := none })).title = "ISSUE UPDATED" ∧
    (buildEmbed "issue" "updated"
        { id := some "7", updated_at := JSNum.num 500, name := none }
        (some { field := some "state", new_value := some "done"
                actor := none })).byField = "Unknown User" := by
  have h :=
    C8_formatter_shape "issue" "updated"
      { id := some "7", updated_at := JSNum.num 500, name := none }
      (some { field := some "state", new_value := some "done"
              actor := none })
  refine ⟨?_, ?_, ?_⟩
  · exact (h.2.2.2.2.1 _ "done" rfl rfl rfl).trans (by decide)
  · exact h.1.trans (by decide)
  · exact h.2.2.2.2.2.2.2 _ rfl rfl

/-- C6: when the correlator decides `Completed`, the decision carries the
cached record (`existingRecord`, the retained context of the original
envelope: its timestamp and action), and the message handed to the sink is
built by the formatter from the new envelope's context (`data` and
`activity`), so both contexts are present at the formatting site. -/
theorem C6_completed_carries_both_contexts (hmac : String → String)
    (parseJson : String → Option ReqData) (secret : Option String)
    (sinkOk : Bool) (st : SysState) (sig : Option String) (raw : String)
    (rd : ReqData) (dat : DataObj) (rec : PendRec) (ev acn : String)
    (hauth : (jsFalsyOpt secret || jsFalsyOpt sig) = false)
    (heq : hmac raw = jsShowOpt sig)
    (hparse : parseJson raw = some rd)
    (hdat : rd.data = some dat)
    (hev : rd.event = some ev) (hac : rd.action = some acn)
    (hrec : st.table (jsShowOpt rd.event ++ ":" ++ jsShowOpt dat.id) =
      some rec)
    (hw : inWindow (jsSub dat.updated_at rec.timestamp) = true) :
    (handle hmac parseJson secret sinkOk st sig raw).decision =
      some (Decision.Completed rec) ∧
    (handle hmac parseJson secret sinkOk st sig raw).sentEmbed =
      some (buildEmbed ev acn dat rd.activity) := by
  have hlen : byteLen (hmac raw) = byteLen (jsShowOpt sig) := by rw [heq]
  have hobs :=
    observe_completed_eq st (jsShowOpt rd.event ++ ":" ++ jsShowOpt dat.id)
      dat.updated_at rd.action rec hrec hw
  rw [hev, hac] at hobs
  cases sinkOk <;>
    simp [handle, hauth, hlen, heq, hparse, handleParsed, hdat, hobs, hev,
      hac]

/-- C6 witness: the spec scenario completes and the handler result carries
both the cached record and the embed built from the new envelope. -/
theorem C6_completed_carries_both_contexts_witness :
    (handle hmacFix parseFixDone (some "s") true resFix1.state (some "sig0")
        "b").decision =
      some (Decision.Completed
        { timestamp := JSNum.num 0, action := some "updated" }) ∧
    (handle hmacFix parseFixDone (some "s") true resFix1.state (some "sig0")
        "b").sentEmbed =
      some (buildEmbed "issue" "updated"
        { id := some "7", updated_at := JSNum.num 500, name := none }
        (some { field := some "state", new_value := some "done"
                actor := none })) :=
  C6_completed_carries_both_contexts hmacFix parseFixDone (some "s") true
    resFix1.state (some "sig0") "b"
    { event := some "issue", action := some "updated"
      data :=
        some { id := some "7", updated_at := JSNum.num 500, name := none }
      activity :=
        some { field := some "state", new_value := some "done"
               actor := none } }
    { id := some "7", updated_at := JSNum.num 500, name := none }
    { timestamp := JSNum.num 0, action := some "updated" } "issue" "updated"
    (by decide) (by decide) rfl rfl rfl rfl (by decide) (by decide)

/-- C5 counterexample: an authenticated payload that parses but lacks the
required fields `data.id` and `data.updated_at` (§6 of the spec lists both
as required) is *not* answered with 500: the handler caches
`{timestamp: NaN, action}` under `"issue:undefined"` and responds 200
("Initial event cached"), contradicting the claim's
"a payload that ... lacks required fields yields 500". -/
theorem C5_counterexample :
    (handle hmacFix parseFixMissing (some "s") true initState (some "sig0")
        "b").status = 200 := by
  decide

/-- C5 amended: the response taxonomy as implemented — absent (or empty)
secret or presented signature gives 401 with no downstream call; a
signature length or content mismatch gives 403 with no downstream call; an
unparseable payload, or one whose `data` member is absent (so member access
faults), gives 500 with no downstream call; a payload whose `data` object
merely lacks inner required fields is *not* rejected (first-seen it is
answered 200); and a non-success response from the downstream sink on a
completed pair is surfaced as 500 after the single delivery attempt. -/
theorem C5_taxonomy_as_implemented (hmac : String → String)
    (parseJson : String → Option ReqData) (secret : Option String)
    (sinkOk : Bool) (st : SysState) (sig : Option String) (raw : String) :
    ((jsFalsyOpt secret || jsFalsyOpt sig) = true →
      (handle hmac parseJson secret sinkOk st sig raw).status = 401 ∧
      (handle hmac parseJson secret sinkOk st sig raw).sinkCalls = 0) ∧
    ((jsFalsyOpt secret || jsFalsyOpt sig) = false →
      (byteLen (hmac raw) ≠ byteLen (jsShowOpt sig) ∨
        hmac raw ≠ jsShowOpt sig) →
      (handle hmac parseJson secret sinkOk st sig raw).status = 403 ∧
      (handle hmac parseJson secret sinkOk st sig raw).sinkCalls = 0) ∧
    ((jsFalsyOpt secret || jsFalsyOpt sig) = false →
      hmac raw = jsShowOpt sig → parseJson raw = none →
      (handle hmac parseJson secret sinkOk st sig raw).status = 500 ∧
      (handle hmac parseJson secret sinkOk st sig raw).sinkCalls = 0) ∧
    (∀ rd, (jsFalsyOpt secret || jsFalsyOpt sig) = false →
      hmac raw = jsShowOpt sig → parseJson raw = some rd → rd.data = none →
      (handle hmac parseJson secret sinkOk st sig raw).status = 500 ∧
      (handle hmac parseJson secret sinkOk st sig raw).sinkCalls = 0) ∧
    (∀ rd dat, (jsFalsyOpt secret || jsFalsyOpt sig) = false →
      hmac raw = jsShowOpt sig → parseJson raw = some rd →
      rd.data = some dat →
      st.table (jsShowOpt rd.event ++ ":" ++ jsShowOpt dat.id) = none →
      (handle hmac parseJson secret sinkOk st sig raw).status = 200) ∧
    (∀ rd dat rec ev acn, (jsFalsyOpt secret || jsFalsyOpt sig) = false →
      hmac raw = jsShowOpt sig → parseJson raw = some rd →
      rd.data = some dat → rd.event = some ev → rd.action = some acn →
      st.table (jsShowOpt rd.event ++ ":" ++ jsShowOpt dat.id) = some rec →
      inWindow (jsSub dat.updated_at rec.timestamp) = true →
      sinkOk = false →
      (handle hmac parseJson secret sinkOk st sig raw).status = 500 ∧
      (handle hmac parseJson secret sinkOk st sig raw).sinkCalls = 1) := by
  refine ⟨?_, ?_, ?_, ?_, ?_, ?_⟩
  · intro h
    simp [handle, h]
  · intro h hmis
    by_cases hlen : byteLen (hmac raw) = byteLen (jsShowOpt sig)
    · rcases hmis with hl | hne
      · exact absurd hlen hl
      · simp [handle, h, hlen, hne]
    · simp [handle, h, hlen]
  · intro h heq hparse
    have hlen : byteLen (hmac raw) = byteLen (jsShowOpt sig) := by rw [heq]
    simp [handle, h, hlen, heq, hparse]
  · intro rd h heq hparse hdat
    have hlen : byteLen (hmac raw) = byteLen (jsShowOpt sig) := by rw [heq]
    simp [handle, h, hlen, heq, hparse, handleParsed, hdat]
  · intro rd dat h heq hparse hdat htab
    have hlen : byteLen (hmac raw) = byteLen (jsShowOpt sig) := by rw [heq]
    have hobs :=
      observe_cached_eq st (jsShowOpt rd.event ++ ":" ++ jsShowOpt dat.id)
        dat.updated_at rd.action htab
    simp [handle, h, hlen, heq, hparse, handleParsed, hdat, hobs]
  · intro rd dat rec ev acn h heq hparse hdat hev hac hrec hw hsink
    have hlen : byteLen (hmac raw) = byteLen (jsShowOpt sig) := by rw [heq]
    have hobs :=
      observe_completed_eq st (jsShowOpt rd.event ++ ":" ++ jsShowOpt dat.id)
        dat.updated_at rd.action rec hrec hw
    rw [hev, hac] at hobs
    subst hsink
    simp [handle, h, hlen, heq, hparse, handleParsed, hdat, hobs, hev, hac]

/-- C5 amended witness: an absent signature is answered 401; an unparseable
body from an authenticated sender is answered 500 with no downstream
call. -/
theorem C5_taxonomy_as_implemented_witness :
    ((handle hmacFix parseFix1 (some "s") true initState none "b").status =
      401) ∧
    (handle hmacFix (fun _ => none) (some "s") true initState (some "sig0")
        "b").status = 500 ∧
    (handle hmacFix (fun _ => none) (some "s") true initState (some "sig0")
        "b").sinkCalls = 0 := by
  have h1 :=
    (C5_taxonomy_as_implemented hmacFix parseFix1 (some "s") true initState
        none "b").1 (by decide)
  have h2 :=
    (C5_taxonomy_as_implemented hmacFix (fun _ => none) (some "s") true
        initState (some "sig0") "b").2.2.1 (by decide) (by decide) rfl
  exact ⟨h1.1, h2.1, h2.2⟩

/-- C7 counterexample: a reachable trace (two authenticated requests whose
payloads lack the `event` field) in which the correlator's decision is
`Completed` — the pending record was found within the window and deleted —
yet no outbound delivery is attempted: `event.toUpperCase()` throws before
the `fetch`, so the handler answers 500 with zero sink calls,
contradicting "a delivery is attempted if and only if the decision is
Completed". -/
theorem C7_counterexample :
    resFixNoEvent2.decision =
      some (Decision.Completed
        { timestamp := JSNum.num 100, action := some "updated" }) ∧
    resFixNoEvent2.sinkCalls = 0 ∧
    resFixNoEvent2.status = 500 :=
  ⟨by decide, by decide, by decide⟩

/-- C7 amended: at most one delivery attempt is ever made per request; a
delivery happens only on a `Completed` decision; and for an authenticated,
parsed request, `Cached` and `Reset` respond 200 with no outbound call,
`Completed` with the `event` and `action` fields present makes exactly one
delivery attempt (no retry — one `fetch` regardless of the sink's answer),
while `Completed` with `event` or `action` absent faults before the
delivery (500, no call). -/
theorem C7_single_delivery_on_completed (hmac : String → String)
    (parseJson : String → Option ReqData) (secret : Option String)
    (sinkOk : Bool) (st : SysState) (sig : Option String) (raw : String) :
    (handle hmac parseJson secret sinkOk st sig raw).sinkCalls ≤ 1 ∧
    ((handle hmac parseJson secret sinkOk st sig raw).sinkCalls = 1 →
      ∃ rec, (handle hmac parseJson secret sinkOk st sig raw).decision =
        some (Decision.Completed rec)) ∧
    (∀ rd dat, (jsFalsyOpt secret || jsFalsyOpt sig) = false →
      hmac raw = jsShowOpt sig → parseJson raw = some rd →
      rd.data = some dat →
      (((observe st (jsShowOpt rd.event ++ ":" ++ jsShowOpt dat.id)
            dat.updated_at rd.action).fst = Decision.Cached ∨
        (observe st (jsShowOpt rd.event ++ ":" ++ jsShowOpt dat.id)
            dat.updated_at rd.action).fst = Decision.Reset) →
        (handle hmac parseJson secret sinkOk st sig raw).sinkCalls = 0 ∧
        (handle hmac parseJson secret sinkOk st sig raw).status = 200) ∧
      (∀ rec ev acn,
        (observe st (jsShowOpt rd.event ++ ":" ++ jsShowOpt dat.id)
            dat.updated_at rd.action).fst = Decision.Completed rec →
        rd.event = some ev → rd.action = some acn →
        (handle hmac parseJson secret sinkOk st sig raw).sinkCalls = 1) ∧
      (∀ rec,
        (observe st (jsShowOpt rd.event ++ ":" ++ jsShowOpt dat.id)
            dat.updated_at rd.action).fst = Decision.Completed rec →
        (rd.event = none ∨ rd.action = none) →
        (handle hmac parseJson secret sinkOk st sig raw).sinkCalls = 0 ∧
        (handle hmac parseJson secret sinkOk st sig raw).status = 500)) := by
  refine ⟨(handle_sink_shape hmac parseJson secret sinkOk st sig raw).1,
    (handle_sink_shape hmac parseJson secret sinkOk st sig raw).2, ?_⟩
  intro rd dat h heq hparse hdat
  have hlen : byteLen (hmac raw) = byteLen (jsShowOpt sig) := by rw [heq]
  rcases hobs : observe st (jsShowOpt rd.event ++ ":" ++ jsShowOpt dat.id)
      dat.updated_at rd.action with ⟨dec, st'⟩
  refine ⟨?_, ?_, ?_⟩
  · intro hd
    rcases hd with hd | hd <;> simp only [Prod.fst] at hd <;> subst hd <;>
      simp [handle, h, hlen, heq, hparse, handleParsed, hdat, hobs]
  · intro rec ev acn hd hev hac
    simp only [Prod.fst] at hd
    subst hd
    rw [hev, hac] at hobs
    cases sinkOk <;>
      simp [handle, h, hlen, heq, hparse, handleParsed, hdat, hobs, hev,
        hac]
  · intro rec hd hmiss
    simp only [Prod.fst] at hd
    subst hd
    rcases hmiss with hev | hac
    · rw [hev] at hobs
      simp [handle, h, hlen, heq, hparse, handleParsed, hdat, hobs, hev]
    · rcases hevv : rd.event with _ | ev
      · rw [hevv, hac] at hobs
        simp [handle, h, hlen, heq, hparse, handleParsed, hdat, hobs,
          hevv, hac]
      · rw [hevv, hac] at hobs
        simp [handle, h, hlen, heq, hparse, handleParsed, hdat, hobs,
          hevv, hac]

/-- C7 amended witness: the spec's first-seen request makes no delivery
attempt (`Cached`, 200), and at most one attempt is possible. -/
theorem C7_single_delivery_on_completed_witness :
    (handle hmacFix parseFix1 (some "s") true initState (some "sig0")
        "b").sinkCalls ≤ 1 ∧
    (handle hmacFix parseFix1 (some "s") true initState (some "sig0")
        "b").sinkCalls = 0 ∧
    (handle hmacFix parseFix1 (some "s") true initState (some "sig0")
        "b").status = 200 := by
  have h :=
    C7_single_delivery_on_completed hmacFix parseFix1 (some "s") true
      initState (some "sig0") "b"
  have h3 :=
    (h.2.2
        { event := some "issue", action := some "updated"
          data :=
            some { id := some "7", updated_at := JSNum.num 0, name := none }
          activity := none }
        { id := some "7", updated_at := JSNum.num 0, name := none }
        (by decide) (by decide) rfl rfl).1 (Or.inl (by decide))
  exact ⟨h.1, h3.1, h3.2⟩
